import Mathlib

/-!
Verification of the epicpass-davita-clinic-analyzer data pipeline.

Shallow embedding of the Python scripts under `scripts/`:
  * `geocoder.py`      — haversine distance, cached resort/facility geocoders
  * `config.py`        — resort lists, provider-chain classifier
  * `generate_data.py` — main CMS dialysis pipeline (nearest-resort scan)
  * `build_hospitals.py`, `fetch_cms_hospitals.py`, `fetch_osm_hospitals.py`
                       — hospital pipeline variants (nearest-resort scan)
  * `build_resorts.py`, `fetch_osm_resorts.py` — resort pipeline variants

Python floats are modelled as real numbers (for trigonometric distance code)
or as rationals (for cached coordinate values that are only compared for
Python truthiness).  Network I/O is modelled by passing the would-be network
response as an explicit `Option` argument (`none` = request exception).
-/

/-! ## Python string helpers

`startsWithCL s sub` is `True` iff `sub` is a prefix of `s`;
`containsSub s sub` models Python's `sub in s` substring test. -/

def startsWithCL : List Char → List Char → Bool
  | _, [] => true
  | [], _ :: _ => false
  | c :: cs, d :: ds => c == d && startsWithCL cs ds

def containsSub : List Char → List Char → Bool
  | [], sub => startsWithCL [] sub
  | c :: t, sub => startsWithCL (c :: t) sub || containsSub t sub

/-- Python truthiness of an optional numeric value: `None`, `0` and `0.0`
are falsy, every other number is truthy. -/
def truthy : Option ℚ → Bool
  | none => false
  | some x => decide (x ≠ 0)

/-! ## `geocoder.py`: haversine distance -/

namespace Geocoder

/-- `math.radians`. -/
noncomputable def radians (x : ℝ) : ℝ := x * Real.pi / 180

/-- The intermediate value `a` of `haversine_miles` in `geocoder.py`:
`a = sin(dphi/2)**2 + cos(phi1)*cos(phi2)*sin(dlambda/2)**2`.
This is the argument later passed to `math.sqrt`. -/
noncomputable def hav_a (lat1 lon1 lat2 lon2 : ℝ) : ℝ :=
  Real.sin (radians (lat2 - lat1) / 2) ^ 2 +
    Real.cos (radians lat1) * Real.cos (radians lat2) *
      Real.sin (radians (lon2 - lon1) / 2) ^ 2

/-- `haversine_miles` from `geocoder.py` (Earth radius `3958.7613`);
`math.asin` is `Real.arcsin`. -/
noncomputable def haversine_miles (lat1 lon1 lat2 lon2 : ℝ) : ℝ :=
  2 * 3958.7613 * Real.arcsin (Real.sqrt (hav_a lat1 lon1 lat2 lon2))

lemma radians_sub (x y : ℝ) : radians (x - y) = radians x - radians y := by
  unfold radians; ring

/-- `-1 ≤ sin a * sin b + cos a * cos b * t ≤ 1` for `|t| ≤ 1`:
the spherical-law-of-cosines expression is a valid cosine. -/
lemma sph_cos_bounds (a b t : ℝ) (h1 : -1 ≤ t) (h2 : t ≤ 1) :
    -1 ≤ Real.sin a * Real.sin b + Real.cos a * Real.cos b * t ∧
      Real.sin a * Real.sin b + Real.cos a * Real.cos b * t ≤ 1 := by
  have ha : Real.sin a ^ 2 + Real.cos a ^ 2 = 1 := Real.sin_sq_add_cos_sq a
  have hb : Real.sin b ^ 2 + Real.cos b ^ 2 = 1 := Real.sin_sq_add_cos_sq b
  have habs : |t| ≤ 1 := abs_le.mpr ⟨h1, h2⟩
  have key : |Real.sin a * Real.sin b| + |Real.cos a * Real.cos b| ≤ 1 := by
    rw [abs_mul, abs_mul]
    have e1 : |Real.sin a| ^ 2 + |Real.cos a| ^ 2 = 1 := by rw [sq_abs, sq_abs]; exact ha
    have e2 : |Real.sin b| ^ 2 + |Real.cos b| ^ 2 = 1 := by rw [sq_abs, sq_abs]; exact hb
    nlinarith [sq_nonneg (|Real.sin a| * |Real.cos b| - |Real.cos a| * |Real.sin b|),
      sq_nonneg (|Real.sin a| * |Real.sin b| + |Real.cos a| * |Real.cos b|),
      mul_nonneg (abs_nonneg (Real.sin a)) (abs_nonneg (Real.sin b)),
      mul_nonneg (abs_nonneg (Real.cos a)) (abs_nonneg (Real.cos b))]
  have hb1 : |Real.sin a * Real.sin b + Real.cos a * Real.cos b * t| ≤ 1 := by
    calc |Real.sin a * Real.sin b + Real.cos a * Real.cos b * t|
        ≤ |Real.sin a * Real.sin b| + |Real.cos a * Real.cos b * t| := abs_add _ _
      _ = |Real.sin a * Real.sin b| + |Real.cos a * Real.cos b| * |t| := by
          rw [abs_mul (Real.cos a * Real.cos b) t]
      _ ≤ |Real.sin a * Real.sin b| + |Real.cos a * Real.cos b| * 1 := by
          have := mul_le_mul_of_nonneg_left habs (abs_nonneg (Real.cos a * Real.cos b))
          linarith
      _ = |Real.sin a * Real.sin b| + |Real.cos a * Real.cos b| := by ring
      _ ≤ 1 := key
  exact abs_le.mp hb1

lemma sin_sq_half_eq (x : ℝ) : Real.sin (x / 2) ^ 2 = 1 / 2 - Real.cos x / 2 := by
  have h2 : (2 : ℝ) * (x / 2) = x := by ring
  rw [Real.sin_sq_eq_half_sub, h2]

/-- Closed form of `hav_a` via the half-angle identity. -/
lemma hav_a_eq (lat1 lon1 lat2 lon2 : ℝ) :
    hav_a lat1 lon1 lat2 lon2 =
      (1 - (Real.sin (radians lat1) * Real.sin (radians lat2) +
        Real.cos (radians lat1) * Real.cos (radians lat2) *
          Real.cos (radians lon2 - radians lon1))) / 2 := by
  unfold hav_a
  rw [radians_sub lat2 lat1, radians_sub lon2 lon1,
    sin_sq_half_eq, sin_sq_half_eq, Real.cos_sub]
  ring

lemma hav_a_nonneg (lat1 lon1 lat2 lon2 : ℝ) : 0 ≤ hav_a lat1 lon1 lat2 lon2 := by
  rw [hav_a_eq]
  have h := (sph_cos_bounds (radians lat1) (radians lat2)
    (Real.cos (radians lon2 - radians lon1))
    (Real.neg_one_le_cos _) (Real.cos_le_one _)).2
  linarith

lemma hav_a_le_one (lat1 lon1 lat2 lon2 : ℝ) : hav_a lat1 lon1 lat2 lon2 ≤ 1 := by
  rw [hav_a_eq]
  have h := (sph_cos_bounds (radians lat1) (radians lat2)
    (Real.cos (radians lon2 - radians lon1))
    (Real.neg_one_le_cos _) (Real.cos_le_one _)).1
  linarith

lemma sqrt_hav_a_le_one (lat1 lon1 lat2 lon2 : ℝ) :
    Real.sqrt (hav_a lat1 lon1 lat2 lon2) ≤ 1 := by
  have := Real.sqrt_le_sqrt (hav_a_le_one lat1 lon1 lat2 lon2)
  simpa using this

lemma haversine_nonneg (lat1 lon1 lat2 lon2 : ℝ) :
    0 ≤ haversine_miles lat1 lon1 lat2 lon2 := by
  unfold haversine_miles
  have h1 : 0 ≤ Real.arcsin (Real.sqrt (hav_a lat1 lon1 lat2 lon2)) :=
    Real.arcsin_nonneg.mpr (Real.sqrt_nonneg _)
  have h2 : (0 : ℝ) ≤ 2 * 3958.7613 := by norm_num
  exact mul_nonneg h2 h1

lemma radians_zero : radians 0 = 0 := by simp [radians]

lemma hav_a_self (lat lon : ℝ) : hav_a lat lon lat lon = 0 := by
  unfold hav_a
  simp [radians_zero]

/-- Coincident points are at haversine distance `0`. -/
lemma haversine_self (lat lon : ℝ) : haversine_miles lat lon lat lon = 0 := by
  unfold haversine_miles
  rw [hav_a_self]
  simp

end Geocoder

/-! ## The nearest-match engine

All pipeline variants share one loop shape (`generate_data.generate_clinics_json`,
`build_hospitals.main`, `fetch_cms_hospitals.main`, `fetch_osm_hospitals.process_hospital`):

```
min_dist = float('inf'); nearest = None
for resort in resorts:
    d = dist(resort)
    if d < min_dist: min_dist = d; nearest = resort
```

We model the `(nearest, min_dist)` pair as an `Option` accumulator: `none`
is the initial `(None, inf)` state, and since every computed distance is a
(finite) real, the first iteration always replaces it — exactly the effect
of `d < inf`.  The element type `ρ` and distance codomain `δ` are kept
general (the scripts instantiate `δ` with floats, modelled as `ℝ`, and
`dist` with a haversine distance to a fixed facility). -/

namespace NearestScan

variable {ρ : Type*} {δ : Type*} [LinearOrder δ]

/-- One iteration of the loop body (`if d < min_dist: ...`). -/
def scanStep (dist : ρ → δ) (acc : Option (ρ × δ)) (r : ρ) : Option (ρ × δ) :=
  match acc with
  | none => some (r, dist r)
  | some (b, m) => if dist r < m then some (r, dist r) else some (b, m)

/-- The whole scan: linear fold of `scanStep` from the initial
`(None, inf)` state. -/
def nearestScan (dist : ρ → δ) (rs : List ρ) : Option (ρ × δ) :=
  rs.foldl (scanStep dist) none

/-- Scan followed by the max-distance policy shared by
`generate_data.py` (`if min_dist <= MAX_CLINIC_DISTANCE`) and
`fetch_cms_hospitals.py` / `fetch_osm_hospitals.py`
(`if min_dist > MAX_DISTANCE_MILES: skip`). -/
def nearestWithin (dist : ρ → δ) (maxD : δ) (rs : List ρ) : Option (ρ × δ) :=
  match nearestScan dist rs with
  | none => none
  | some (b, m) => if m ≤ maxD then some (b, m) else none

lemma scanStep_none (dist : ρ → δ) (r : ρ) :
    scanStep dist none r = some (r, dist r) := rfl

lemma scanStep_lt (dist : ρ → δ) (b r : ρ) (m : δ) (h : dist r < m) :
    scanStep dist (some (b, m)) r = some (r, dist r) := by
  simp [scanStep, h]

lemma scanStep_not_lt (dist : ρ → δ) (b r : ρ) (m : δ) (h : ¬ dist r < m) :
    scanStep dist (some (b, m)) r = some (b, m) := by
  simp [scanStep, h]

lemma foldl_scanStep_some (dist : ρ → δ) :
    ∀ (rs : List ρ) (b : ρ) (m : δ),
      ∃ b' m', rs.foldl (scanStep dist) (some (b, m)) = some (b', m') ∧
        m' ≤ m ∧ (∀ r ∈ rs, m' ≤ dist r) ∧
        ((b' = b ∧ m' = m) ∨ ∃ r ∈ rs, b' = r ∧ m' = dist r) := by
  intro rs
  induction rs with
  | nil =>
    intro b m
    exact ⟨b, m, rfl, le_refl m, by simp, Or.inl ⟨rfl, rfl⟩⟩
  | cons r t ih =>
    intro b m
    simp only [List.foldl_cons]
    by_cases h : dist r < m
    · rw [scanStep_lt dist b r m h]
      obtain ⟨b', m', heq, hle, hall, hcases⟩ := ih r (dist r)
      refine ⟨b', m', heq, le_trans hle (le_of_lt h), ?_, ?_⟩
      · intro x hx
        rcases List.mem_cons.mp hx with hx | hx
        · rw [hx]; exact hle
        · exact hall x hx
      · rcases hcases with ⟨hb, hm⟩ | ⟨x, hx, hbx, hmx⟩
        · exact Or.inr ⟨r, List.mem_cons_self r t, hb, hm⟩
        · exact Or.inr ⟨x, List.mem_cons_of_mem r hx, hbx, hmx⟩
    · rw [scanStep_not_lt dist b r m h]
      obtain ⟨b', m', heq, hle, hall, hcases⟩ := ih b m
      refine ⟨b', m', heq, hle, ?_, ?_⟩
      · intro x hx
        rcases List.mem_cons.mp hx with hx | hx
        · rw [hx]; exact le_trans hle (not_lt.mp h)
        · exact hall x hx
      · rcases hcases with ⟨hb, hm⟩ | ⟨x, hx, hbx, hmx⟩
        · exact Or.inl ⟨hb, hm⟩
        · exact Or.inr ⟨x, List.mem_cons_of_mem r hx, hbx, hmx⟩

/-- On a nonempty list the scan returns an element of the list together
with its distance, and that distance is a lower bound for every distance
in the list (it is the minimum). -/
lemma nearestScan_spec (dist : ρ → δ) (r0 : ρ) (t : List ρ) :
    ∃ b m, nearestScan dist (r0 :: t) = some (b, m) ∧
      b ∈ r0 :: t ∧ m = dist b ∧ ∀ r ∈ r0 :: t, m ≤ dist r := by
  unfold nearestScan
  simp only [List.foldl_cons]
  rw [scanStep_none]
  obtain ⟨b', m', heq, hle, hall, hcases⟩ := foldl_scanStep_some dist t r0 (dist r0)
  refine ⟨b', m', heq, ?_, ?_, ?_⟩
  · rcases hcases with ⟨hb, _⟩ | ⟨x, hx, hbx, _⟩
    · rw [hb]; exact List.mem_cons_self r0 t
    · rw [hbx]; exact List.mem_cons_of_mem r0 hx
  · rcases hcases with ⟨hb, hm⟩ | ⟨x, hx, hbx, hmx⟩
    · rw [hb, hm]
    · rw [hbx, hmx]
  · intro r hr
    rcases List.mem_cons.mp hr with hr | hr
    · rw [hr]; exact hle
    · exact hall r hr

lemma nearestScan_eq_none_iff (dist : ρ → δ) (rs : List ρ) :
    nearestScan dist rs = none ↔ rs = [] := by
  cases rs with
  | nil => simp [nearestScan]
  | cons r t =>
    obtain ⟨b, m, heq, _⟩ := nearestScan_spec dist r t
    simp [heq]

lemma foldl_scanStep_stay (dist : ρ → δ) :
    ∀ (rs : List ρ) (b : ρ) (m : δ), (∀ r ∈ rs, ¬ dist r < m) →
      rs.foldl (scanStep dist) (some (b, m)) = some (b, m) := by
  intro rs
  induction rs with
  | nil => intro b m _; rfl
  | cons r t ih =>
    intro b m h
    simp only [List.foldl_cons]
    rw [scanStep_not_lt dist b r m (h r (List.mem_cons_self r t))]
    exact ih b m (fun x hx => h x (List.mem_cons_of_mem r hx))

/-- The strict `<` update makes the scan keep the FIRST minimizer in
iteration order: if every element before `R` is strictly farther and no
element after `R` is strictly closer, the scan returns `R`. -/
lemma nearestScan_first_min (dist : ρ → δ) (pre post : List ρ) (R : ρ)
    (hpre : ∀ p ∈ pre, dist R < dist p)
    (hpost : ∀ r ∈ post, ¬ dist r < dist R) :
    nearestScan dist (pre ++ R :: post) = some (R, dist R) := by
  unfold nearestScan
  rw [List.foldl_append]
  cases pre with
  | nil =>
    simp only [List.foldl_nil, List.foldl_cons]
    rw [scanStep_none]
    exact foldl_scanStep_stay dist post R (dist R) hpost
  | cons p pt =>
    obtain ⟨b, m, heq, hmem, hmd, _⟩ := nearestScan_spec dist p pt
    have heq' : (p :: pt).foldl (scanStep dist) none = some (b, m) := heq
    rw [heq']
    have hRm : dist R < m := by
      rw [hmd]; exact hpre b hmem
    simp only [List.foldl_cons]
    rw [scanStep_lt dist b R m hRm]
    exact foldl_scanStep_stay dist post R (dist R) hpost

lemma nearestWithin_eq (dist : ρ → δ) (maxD : δ) (rs : List ρ) (b : ρ) (m : δ)
    (h : nearestScan dist rs = some (b, m)) :
    nearestWithin dist maxD rs = if m ≤ maxD then some (b, m) else none := by
  unfold nearestWithin
  rw [h]

/-- Full characterization of the scan + max-distance policy. -/
lemma nearestWithin_spec (dist : ρ → δ) (maxD : δ) (rs : List ρ) :
    (nearestWithin dist maxD rs = none ↔ rs = [] ∨ ∀ r ∈ rs, maxD < dist r) ∧
    (∀ b m, nearestWithin dist maxD rs = some (b, m) →
      b ∈ rs ∧ m = dist b ∧ m ≤ maxD ∧ ∀ r ∈ rs, m ≤ dist r) := by
  cases rs with
  | nil =>
    constructor
    · simp [nearestWithin, nearestScan]
    · intro b m h
      simp [nearestWithin, nearestScan] at h
  | cons r0 t =>
    obtain ⟨b, m, heq, hmem, hmd, hall⟩ := nearestScan_spec dist r0 t
    rw [nearestWithin_eq dist maxD (r0 :: t) b m heq]
    constructor
    · constructor
      · intro h
        by_cases hle : m ≤ maxD
        · rw [if_pos hle] at h; exact absurd h (by simp)
        · refine Or.inr (fun r hr => lt_of_lt_of_le (not_le.mp hle) (hall r hr))
      · intro h
        rcases h with h | h
        · exact absurd h (by simp)
        · have hgt : maxD < m := by rw [hmd]; exact h b hmem
          rw [if_neg (not_le.mpr hgt)]
    · intro b' m' h
      by_cases hle : m ≤ maxD
      · rw [if_pos hle] at h
        have hb : b = b' := congrArg Prod.fst (Option.some.inj h)
        have hm : m = m' := congrArg Prod.snd (Option.some.inj h)
        subst hb; subst hm
        exact ⟨hmem, hmd, hle, hall⟩
      · rw [if_neg hle] at h
        exact absurd h (by simp)

end NearestScan

/-- A geocoded resort record as consumed by the facility pipelines
(`resorts.json` entries / `df_resorts` rows: only `name`, `lat`, `lon`
are read by the nearest-resort loops). -/
structure Resort where
  name : String
  lat : ℝ
  lon : ℝ

/-- Python's `round(x, n)` modelled over `ℝ` (round half-to-even vs
`round`'s half-up differ only at exact ties, immaterial to the claims,
which never inspect the rounded digits). -/
noncomputable def pyRound (n : ℕ) (x : ℝ) : ℝ := (round (x * 10 ^ n) : ℤ) / 10 ^ n

/-- Python truthiness of an optional string: `None` and `""` are falsy. -/
def truthyStr : Option String → Bool
  | none => false
  | some s => decide (s ≠ "")

/-! ## `generate_data.py`: the dialysis-clinic pipeline -/

namespace GenerateData

/-- `MAX_CLINIC_DISTANCE = 200`. -/
def MAX_CLINIC_DISTANCE : ℝ := 200

/-- Distance from the clinic at `(flat, flon)` to a resort row, as computed
inside the loop of `generate_clinics_json`
(`haversine_miles(clinic_lat, clinic_lon, resort["lat"], resort["lon"])`). -/
noncomputable def resortDist (flat flon : ℝ) (r : Resort) : ℝ :=
  Geocoder.haversine_miles flat flon r.lat r.lon

/-- The nearest-resort loop of `generate_clinics_json`. -/
noncomputable def nearestResortScan (flat flon : ℝ) (rs : List Resort) :
    Option (Resort × ℝ) :=
  NearestScan.nearestScan (resortDist flat flon) rs

/-- Loop followed by the `min_dist <= MAX_CLINIC_DISTANCE` inclusion test
(with an arbitrary threshold `maxD`). -/
noncomputable def clinicNearest (flat flon maxD : ℝ) (rs : List Resort) :
    Option (Resort × ℝ) :=
  NearestScan.nearestWithin (resortDist flat flon) maxD rs

/-- The `(nearestResort, nearestResortDist)` fields of the clinic record
appended by `generate_clinics_json`, or `none` when the clinic is excluded.
The `none` branch of the scan corresponds to `min_dist = inf`, which fails
`inf <= 200`. -/
noncomputable def clinicRecord (rs : List Resort) (flat flon : ℝ) :
    Option (Option String × Option ℝ) :=
  match NearestScan.nearestScan (resortDist flat flon) rs with
  | none => none
  | some (b, m) =>
      if m ≤ MAX_CLINIC_DISTANCE then some (some b.name, some (pyRound 2 m)) else none

lemma resortDist_self (flat flon : ℝ) (n : String) :
    resortDist flat flon ⟨n, flat, flon⟩ = 0 :=
  Geocoder.haversine_self flat flon

lemma nearestScan_singleton_self (flat flon : ℝ) (n : String) :
    NearestScan.nearestScan (resortDist flat flon) [⟨n, flat, flon⟩] =
      some (⟨n, flat, flon⟩, 0) := by
  unfold NearestScan.nearestScan
  simp only [List.foldl_cons, List.foldl_nil, NearestScan.scanStep_none]
  rw [resortDist_self]

lemma clinicNearest_singleton_self (flat flon maxD : ℝ) (n : String) (h : 0 ≤ maxD) :
    clinicNearest flat flon maxD [⟨n, flat, flon⟩] = some (⟨n, flat, flon⟩, 0) := by
  unfold clinicNearest
  rw [NearestScan.nearestWithin_eq _ maxD _ _ _ (nearestScan_singleton_self flat flon n),
    if_pos h]

/-- Two coincident resorts: the scan keeps the first one. -/
lemma nearestResortScan_pair_coincident (flat flon : ℝ) (n1 n2 : String) :
    nearestResortScan flat flon [⟨n1, flat, flon⟩, ⟨n2, flat, flon⟩] =
      some (⟨n1, flat, flon⟩, 0) := by
  unfold nearestResortScan NearestScan.nearestScan
  simp only [List.foldl_cons, List.foldl_nil, NearestScan.scanStep_none]
  rw [resortDist_self]
  have hh : ¬ resortDist flat flon ⟨n2, flat, flon⟩ < 0 := by
    rw [resortDist_self]
    exact lt_irrefl 0
  rw [NearestScan.scanStep_not_lt _ _ _ _ hh]

lemma clinicRecord_singleton (flat flon : ℝ) (n : String) :
    clinicRecord [⟨n, flat, flon⟩] flat flon = some (some n, some (pyRound 2 0)) := by
  unfold clinicRecord
  simp only [nearestScan_singleton_self flat flon n]
  rw [if_pos (by norm_num [MAX_CLINIC_DISTANCE])]

end GenerateData

/-! ## `build_hospitals.py`: hardcoded hospital list -/

namespace BuildHospitals

/-- `haversine_miles` from `build_hospitals.py`: same formula as
`geocoder.py` (so the intermediate `a` is the shared `Geocoder.hav_a`)
but with Earth radius `3958.8`. -/
noncomputable def haversine_miles (lat1 lon1 lat2 lon2 : ℝ) : ℝ :=
  2 * 3958.8 * Real.arcsin (Real.sqrt (Geocoder.hav_a lat1 lon1 lat2 lon2))

lemma haversine_nonneg_bh (lat1 lon1 lat2 lon2 : ℝ) :
    0 ≤ haversine_miles lat1 lon1 lat2 lon2 := by
  unfold haversine_miles
  have h1 : 0 ≤ Real.arcsin (Real.sqrt (Geocoder.hav_a lat1 lon1 lat2 lon2)) :=
    Real.arcsin_nonneg.mpr (Real.sqrt_nonneg _)
  have h2 : (0 : ℝ) ≤ 2 * 3958.8 := by norm_num
  exact mul_nonneg h2 h1

lemma haversine_self_bh (lat lon : ℝ) : haversine_miles lat lon lat lon = 0 := by
  unfold haversine_miles
  rw [Geocoder.hav_a_self]
  simp

noncomputable def hospDist (lat lon : ℝ) (r : Resort) : ℝ :=
  haversine_miles lat lon r.lat r.lon

/-- The `(nearestResort, nearestResortDist)` fields assembled by
`build_hospitals.main` for one hospital:
`"nearestResort": nearest_resort` (still `None` when the loop never ran)
and `"nearestResortDist": round(min_dist, 1) if resorts else None`. -/
noncomputable def hospitalFields (resorts : List Resort) (lat lon : ℝ) :
    Option String × Option ℝ :=
  (Option.map (fun p => (p : Resort × ℝ).1.name)
      (NearestScan.nearestScan (hospDist lat lon) resorts),
   if resorts.isEmpty then none
   else Option.map (fun p => pyRound 1 (p : Resort × ℝ).2)
      (NearestScan.nearestScan (hospDist lat lon) resorts))

lemma hospitalFields_none_iff (resorts : List Resort) (lat lon : ℝ) :
    (hospitalFields resorts lat lon).1 = none ↔
      (hospitalFields resorts lat lon).2 = none := by
  cases resorts with
  | nil => simp [hospitalFields, NearestScan.nearestScan]
  | cons r t =>
    obtain ⟨b, m, heq, _⟩ := NearestScan.nearestScan_spec (hospDist lat lon) r t
    simp [hospitalFields, heq]

end BuildHospitals

/-! ## `fetch_osm_hospitals.py` -/

namespace FetchOSMHospitals

/-- `MAX_DISTANCE_MILES = 100`. -/
def MAX_DISTANCE_MILES : ℝ := 100

/-- `haversine_miles` from `fetch_osm_hospitals.py`: textually the same
definition as in `build_hospitals.py` (Earth radius `3958.8`). -/
noncomputable def haversine_miles (lat1 lon1 lat2 lon2 : ℝ) : ℝ :=
  BuildHospitals.haversine_miles lat1 lon1 lat2 lon2

/-- `process_hospital`: the name guard (`if not name: return None`), the
coordinate truthiness guard (`if not lat or not lon: return None`), the
nearest-resort loop, the `min_dist > MAX_DISTANCE_MILES` drop, and the
`(nearestResort, nearestResortDist)` fields of the emitted record.
Coordinates coming from the parsed OSM JSON are modelled as `Option ℚ`. -/
noncomputable def process_hospital (resorts : List Resort) (name : Option String)
    (latO lonO : Option ℚ) : Option (Option String × Option ℝ) :=
  match name with
  | none => none
  | some _ =>
    if truthy latO && truthy lonO then
      let lat : ℝ := ((latO.getD 0 : ℚ) : ℝ)
      let lon : ℝ := ((lonO.getD 0 : ℚ) : ℝ)
      match NearestScan.nearestScan
          (fun r => haversine_miles lat lon r.lat r.lon) resorts with
      | none => none
      | some (b, m) =>
          if MAX_DISTANCE_MILES < m then none
          else some (some b.name, some (pyRound 1 m))
    else none

end FetchOSMHospitals

/-! ## `fetch_cms_hospitals.py` -/

namespace FetchCMS

/-- `MAX_DISTANCE_MILES = 200`. -/
def MAX_DISTANCE_MILES : ℝ := 200

/-- A `hospital_geocode_cache.json` entry: `{lat, lon}` or a
`{"failed": True}` marker (which has no `lat`/`lon` keys, so both
`get` calls yield `None`). -/
structure CacheEntry where
  lat : Option ℚ
  lon : Option ℚ

/-- `haversine` from `fetch_cms_hospitals.py`: textually the same formula,
Earth radius `3958.8`. -/
noncomputable def haversine (lat1 lon1 lat2 lon2 : ℝ) : ℝ :=
  BuildHospitals.haversine_miles lat1 lon1 lat2 lon2

/-- Step-3 record construction of `fetch_cms_hospitals.main` for one row:
`c = cache.get(fid, {})`; `lat, lon = c.get("lat"), c.get("lon")`;
`if not lat or not lon: continue`; nearest-resort loop; skip when
`min_dist > MAX_DISTANCE_MILES`; otherwise emit the record with its
`(nearestResort, nearestResortDist)` fields. `none` = row skipped. -/
noncomputable def processRow (resorts : List Resort) (entry : Option CacheEntry) :
    Option (Option String × Option ℝ) :=
  let latO : Option ℚ := match entry with | none => none | some e => e.lat
  let lonO : Option ℚ := match entry with | none => none | some e => e.lon
  if truthy latO && truthy lonO then
    let lat : ℝ := ((latO.getD 0 : ℚ) : ℝ)
    let lon : ℝ := ((lonO.getD 0 : ℚ) : ℝ)
    match NearestScan.nearestScan
        (fun r => haversine lat lon r.lat r.lon) resorts with
    | none => none
    | some (b, m) =>
        if MAX_DISTANCE_MILES < m then none
        else some (some b.name, some (pyRound 1 m))
  else none

end FetchCMS

/-! ## `geocoder.py`: cached geocoder classes and the Census extractor

The external services (Nominatim, Census) are out-of-scope network I/O;
they appear as explicit function arguments.  The in-memory `dict` cache is
an association list (insertion of a missing key = cons).  Each `geocode`
call additionally reports how many external resolution calls it made. -/

namespace Geocoder

/-- A `resort_geocoded_cache.json` entry: `{"lat", "lon", "query"}`. -/
structure ResortCacheEntry (α : Type) where
  lat : Option α
  lon : Option α
  query : String

/-- A `facility_geocoded_cache.json` entry: `{"lat", "lon"}`. -/
structure FacilityCacheEntry (α : Type) where
  lat : Option α
  lon : Option α

/-- `ResortGeocoder` in-memory state. -/
structure ResortGeocoderState (α : Type) where
  cache : List (String × ResortCacheEntry α)

/-- `FacilityGeocoder` in-memory state. -/
structure FacilityGeocoderState (α : Type) where
  cache : List (String × FacilityCacheEntry α)

/-- `ResortGeocoder.geocode`.  `ext name state` is the out-of-scope
`geocode_resort_nominatim` call returning `(lat, lon, query)` —
`(None, None, query)` both for an empty Nominatim result and for a caught
`RequestException`.  Returns the `(lat, lon)` pair, the updated state, and
the number of external calls made. -/
def resort_geocode {α : Type} (ext : String → String → Option α × Option α × String)
    (g : ResortGeocoderState α) (name state : String) :
    (Option α × Option α) × ResortGeocoderState α × ℕ :=
  let cache_key := name ++ "|" ++ state
  match g.cache.lookup cache_key with
  | some cached => ((cached.lat, cached.lon), g, 0)
  | none =>
      let r := ext name state
      ((r.1, r.2.1), ⟨(cache_key, ⟨r.1, r.2.1, r.2.2⟩) :: g.cache⟩, 1)

/-- `FacilityGeocoder.geocode`, keyed by CCN; `ext` is the out-of-scope
`geocode_facility_census` call. -/
def facility_geocode {α : Type}
    (ext : String → String → String → String → Option α × Option α)
    (g : FacilityGeocoderState α) (ccn addr city st zipc : String) :
    (Option α × Option α) × FacilityGeocoderState α × ℕ :=
  match g.cache.lookup ccn with
  | some cached => ((cached.lat, cached.lon), g, 0)
  | none =>
      let r := ext addr city st zipc
      (r, ⟨(ccn, ⟨r.1, r.2⟩) :: g.cache⟩, 1)

/-- One parsed `addressMatches[i].coordinates` object of a Census
response; `x` is the longitude, `y` the latitude, either possibly absent. -/
structure AddressMatch where
  x : Option ℚ
  y : Option ℚ

/-- The match-extraction tail of `geocode_facility_census` after a
successful HTTP response: take the first address match, read
`x`/`y`, and return `(lat, lon)` only if both are truthy
(`if lat and lon`), else `(None, None)`. -/
def census_extract (addressMatches : List AddressMatch) : Option ℚ × Option ℚ :=
  match addressMatches with
  | [] => (none, none)
  | m :: _ => if truthy m.y && truthy m.x then (m.y, m.x) else (none, none)

end Geocoder

/-! ## `config.py`: provider classifier and resort master list -/

namespace Config

/-- `PROVIDER_CHAINS` — dict items in insertion order. -/
def PROVIDER_CHAINS : List (String × String) :=
  [("DAVITA", "davita"), ("FRESENIUS", "fresenius"), ("FMC", "fresenius"),
   ("DIALYSIS CLINIC", "independent")]

/-- Python `str.upper` (all inputs here are ASCII): uppercase every
character. -/
def pyUpper (s : String) : String := ⟨s.data.map Char.toUpper⟩

/-- `key in chain_name.upper()` for one rule key. -/
def keyMatch (s key : String) : Bool := containsSub (pyUpper s).data key.data

/-- `classify_provider` from `config.py`: empty-string early return
(`if not chain_name`), then the first dict rule whose key occurs in the
uppercased name wins; no match → `"other"`. -/
def classify_provider (chain_name : String) : String :=
  if chain_name = "" then "other"
  else
    match PROVIDER_CHAINS.find? (fun kv => keyMatch chain_name kv.1) with
    | some kv => kv.2
    | none => "other"

/-- `classify_provider` as an explicit first-match-wins rule chain. -/
lemma classify_eq (s : String) :
    classify_provider s =
      if s = "" then "other"
      else if keyMatch s "DAVITA" then "davita"
      else if keyMatch s "FRESENIUS" then "fresenius"
      else if keyMatch s "FMC" then "fresenius"
      else if keyMatch s "DIALYSIS CLINIC" then "independent"
      else "other" := by
  unfold classify_provider PROVIDER_CHAINS
  by_cases h0 : s = ""
  · simp [h0]
  · simp only [if_neg h0]
    cases h1 : keyMatch s "DAVITA" <;>
      cases h2 : keyMatch s "FRESENIUS" <;>
        cases h3 : keyMatch s "FMC" <;>
          cases h4 : keyMatch s "DIALYSIS CLINIC" <;>
            simp [List.find?, h1, h2, h3, h4]

end Config

/-! ## `fetch_osm_resorts.py`: pass-network tagging -/

namespace FetchOSMResorts

/-- Python `str.lower` (all inputs here are ASCII): lowercase every
character. -/
def pyLower (s : String) : String := ⟨s.data.map Char.toLower⟩

/-- `EPIC_RESORTS` name-pattern set from `fetch_osm_resorts.py`. -/
def EPIC_RESORTS : List String :=
  ["vail", "beaver creek", "breckenridge", "keystone", "crested butte",
   "park city", "heavenly", "northstar", "kirkwood", "stevens pass",
   "stowe", "okemo", "mount snow", "hunter mountain", "attitash",
   "wildcat", "mount sunapee", "crotched mountain",
   "liberty mountain", "roundtop", "whitetail", "jack frost", "big boulder",
   "seven springs", "hidden valley", "laurel mountain",
   "wilmot", "afton alps", "mt brighton", "alpine valley", "boston mills",
   "brandywine", "mad river mountain", "snow creek", "paoli peaks",
   "telluride"]

/-- `IKON_RESORTS` name-pattern set from `fetch_osm_resorts.py`. -/
def IKON_RESORTS : List String :=
  ["aspen", "snowmass", "steamboat", "winter park", "copper mountain",
   "eldora", "jackson hole", "big sky", "alta", "snowbird",
   "deer valley", "brighton", "solitude", "taos",
   "palisades tahoe", "squaw valley", "alpine meadows", "mammoth",
   "june mountain", "big bear", "snow valley",
   "crystal mountain", "snoqualmie", "schweitzer",
   "stratton", "sugarbush", "killington", "pico", "sunday river",
   "sugarloaf", "loon mountain", "windham",
   "boyne highlands", "boyne mountain",
   "snowshoe"]

/-- `is_epic = any(epic in name_lower for epic in EPIC_RESORTS)`. -/
def epicMatch (name : String) : Bool :=
  EPIC_RESORTS.any (fun e => containsSub (pyLower name).data e.data)

/-- `is_ikon = any(ikon in name_lower for ikon in IKON_RESORTS)`. -/
def ikonMatch (name : String) : Bool :=
  IKON_RESORTS.any (fun i => containsSub (pyLower name).data i.data)

/-- `get_pass_network` from `fetch_osm_resorts.py`. -/
def get_pass_network (name : String) : String :=
  if epicMatch name && ikonMatch name then "both"
  else if epicMatch name then "epic"
  else if ikonMatch name then "ikon"
  else "independent"

lemma get_pass_network_both_iff (name : String) :
    get_pass_network name = "both" ↔ epicMatch name = true ∧ ikonMatch name = true := by
  unfold get_pass_network
  cases h1 : epicMatch name <;> cases h2 : ikonMatch name <;> simp

end FetchOSMResorts

namespace Config

def PASS_EPIC : String := "epic"

def PASS_IKON : String := "ikon"

def PASS_BOTH : String := "both"

/-- A `config.py` resort dict `{"name", "state", "region"}`. -/
structure ResortEntry where
  name : String
  state : String
  region : String
deriving DecidableEq

/-- `EPIC_RESORTS` from `config.py`. -/
def EPIC_RESORTS : List ResortEntry :=
  [⟨"Vail", "CO", "rockies"⟩, ⟨"Beaver Creek", "CO", "rockies"⟩,
   ⟨"Breckenridge", "CO", "rockies"⟩, ⟨"Park City", "UT", "rockies"⟩,
   ⟨"Keystone", "CO", "rockies"⟩, ⟨"Crested Butte", "CO", "rockies"⟩,
   ⟨"Telluride Ski Resort", "CO", "rockies"⟩,
   ⟨"Heavenly", "CA/NV", "west"⟩, ⟨"Northstar", "CA", "west"⟩,
   ⟨"Kirkwood", "CA", "west"⟩, ⟨"Stevens Pass", "WA", "pacific-northwest"⟩,
   ⟨"Stowe", "VT", "northeast"⟩, ⟨"Okemo", "VT", "northeast"⟩,
   ⟨"Mount Snow", "VT", "northeast"⟩, ⟨"Hunter", "NY", "northeast"⟩,
   ⟨"Attitash", "NH", "northeast"⟩, ⟨"Wildcat", "NH", "northeast"⟩,
   ⟨"Mount Sunapee", "NH", "northeast"⟩, ⟨"Crotched", "NH", "northeast"⟩,
   ⟨"Liberty Mountain", "PA", "northeast"⟩, ⟨"Roundtop", "PA", "northeast"⟩,
   ⟨"Whitetail", "PA", "northeast"⟩, ⟨"Jack Frost", "PA", "northeast"⟩,
   ⟨"Big Boulder", "PA", "northeast"⟩, ⟨"Seven Springs", "PA", "northeast"⟩,
   ⟨"Hidden Valley Resort", "PA", "northeast"⟩, ⟨"Laurel Mountain", "PA", "northeast"⟩,
   ⟨"Wilmot Mountain", "WI", "midwest"⟩, ⟨"Afton Alps", "MN", "midwest"⟩,
   ⟨"Mt Brighton", "MI", "midwest"⟩, ⟨"Alpine Valley", "OH", "midwest"⟩,
   ⟨"Boston Mills", "OH", "midwest"⟩, ⟨"Brandywine", "OH", "midwest"⟩,
   ⟨"Mad River Mountain", "OH", "midwest"⟩, ⟨"Hidden Valley", "MO", "midwest"⟩,
   ⟨"Snow Creek", "MO", "midwest"⟩, ⟨"Paoli Peaks", "IN", "midwest"⟩]

/-- `IKON_RESORTS` from `config.py`. -/
def IKON_RESORTS : List ResortEntry :=
  [⟨"Aspen Snowmass", "CO", "rockies"⟩, ⟨"Steamboat", "CO", "rockies"⟩,
   ⟨"Winter Park", "CO", "rockies"⟩, ⟨"Copper Mountain", "CO", "rockies"⟩,
   ⟨"Eldora", "CO", "rockies"⟩, ⟨"Arapahoe Basin", "CO", "rockies"⟩,
   ⟨"Snowbird", "UT", "rockies"⟩, ⟨"Alta", "UT", "rockies"⟩,
   ⟨"Brighton", "UT", "rockies"⟩, ⟨"Solitude", "UT", "rockies"⟩,
   ⟨"Deer Valley", "UT", "rockies"⟩, ⟨"Jackson Hole", "WY", "rockies"⟩,
   ⟨"Big Sky", "MT", "rockies"⟩, ⟨"Taos Ski Valley", "NM", "rockies"⟩,
   ⟨"Mammoth Mountain", "CA", "west"⟩, ⟨"June Mountain", "CA", "west"⟩,
   ⟨"Big Bear Mountain", "CA", "west"⟩,
   ⟨"Squaw Valley Alpine Meadows", "CA", "west"⟩,
   ⟨"Mt Bachelor", "OR", "pacific-northwest"⟩,
   ⟨"Crystal Mountain", "WA", "pacific-northwest"⟩,
   ⟨"The Summit at Snoqualmie", "WA", "pacific-northwest"⟩,
   ⟨"Sun Valley", "ID", "west"⟩, ⟨"Schweitzer", "ID", "pacific-northwest"⟩,
   ⟨"Killington", "VT", "northeast"⟩, ⟨"Pico Mountain", "VT", "northeast"⟩,
   ⟨"Sugarbush", "VT", "northeast"⟩, ⟨"Stratton", "VT", "northeast"⟩,
   ⟨"Sunday River", "ME", "northeast"⟩, ⟨"Sugarloaf", "ME", "northeast"⟩,
   ⟨"Loon Mountain", "NH", "northeast"⟩, ⟨"Tremblant", "QC", "northeast"⟩,
   ⟨"Blue Mountain", "ON", "northeast"⟩,
   ⟨"Boyne Highlands", "MI", "midwest"⟩, ⟨"Boyne Mountain", "MI", "midwest"⟩,
   ⟨"Snowshoe", "WV", "southeast"⟩]

/-- `BOTH_PASS_RESORTS` — empty in `config.py`
(`# None currently - but could add if any exist`). -/
def BOTH_PASS_RESORTS : List ResortEntry := []

/-- A `get_all_resorts` result dict `{**r, "passNetwork": ...}`. -/
structure ResortWithPass where
  name : String
  state : String
  region : String
  passNetwork : String
deriving DecidableEq

/-- `get_all_resorts` from `config.py`: the three loops appending each
list with its pass network. -/
def get_all_resorts : List ResortWithPass :=
  EPIC_RESORTS.map (fun r => ⟨r.name, r.state, r.region, PASS_EPIC⟩) ++
    IKON_RESORTS.map (fun r => ⟨r.name, r.state, r.region, PASS_IKON⟩) ++
    BOTH_PASS_RESORTS.map (fun r => ⟨r.name, r.state, r.region, PASS_BOTH⟩)

lemma get_all_resorts_no_both :
    ∀ r ∈ get_all_resorts, r.passNetwork ≠ "both" := by
  intro r hr
  simp only [get_all_resorts, BOTH_PASS_RESORTS, List.map_nil, List.append_nil,
    List.mem_append, List.mem_map] at hr
  rcases hr with ⟨x, _, hx⟩ | ⟨x, _, hx⟩ <;> rw [← hx] <;> simp [PASS_EPIC, PASS_IKON]

end Config

/-! ## `build_resorts.py`: cache-driven resort builder -/

/-- Python's `round(x, n)` on a rational (JSON floats are rationals). -/
def pyRoundQ (n : ℕ) (x : ℚ) : ℚ := (round (x * 10 ^ n) : ℤ) / 10 ^ n

namespace BuildResorts

/-- A `resort_geocoded_cache.json` entry as read by `build_resorts.py`
(the `query` field is never accessed there). -/
structure CacheEntry where
  lat : Option ℚ
  lon : Option ℚ
deriving DecidableEq

abbrev Cache := List (String × CacheEntry)

/-- An output `resorts.json` record. -/
structure ResortRec where
  id : String
  name : String
  state : String
  lat : ℚ
  lon : ℚ
  passNetwork : String
  region : String
deriving DecidableEq

/-- `EPIC_RESORTS` from `build_resorts.py` (name, state, region). -/
def EPIC_RESORTS : List (String × String × String) :=
  [("Vail", "CO", "rockies"), ("Beaver Creek", "CO", "rockies"),
   ("Breckenridge", "CO", "rockies"), ("Park City", "UT", "rockies"),
   ("Keystone", "CO", "rockies"), ("Crested Butte", "CO", "rockies"),
   ("Heavenly", "CA/NV", "west"), ("Northstar", "CA", "west"),
   ("Kirkwood", "CA", "west"), ("Stevens Pass", "WA", "pacific-northwest"),
   ("Stowe", "VT", "northeast"), ("Okemo", "VT", "northeast"),
   ("Mount Snow", "VT", "northeast"), ("Hunter", "NY", "northeast"),
   ("Attitash", "NH", "northeast"), ("Wildcat", "NH", "northeast"),
   ("Mount Sunapee", "NH", "northeast"), ("Crotched", "NH", "northeast"),
   ("Liberty Mountain", "PA", "northeast"), ("Roundtop", "PA", "northeast"),
   ("Whitetail", "PA", "northeast"), ("Jack Frost", "PA", "northeast"),
   ("Big Boulder", "PA", "northeast"), ("Seven Springs", "PA", "northeast"),
   ("Hidden Valley Resort", "PA", "northeast"), ("Laurel Mountain", "PA", "northeast"),
   ("Wilmot Mountain", "WI", "midwest"), ("Afton Alps", "MN", "midwest"),
   ("Mt Brighton", "MI", "midwest"), ("Alpine Valley", "OH", "midwest"),
   ("Boston Mills", "OH", "midwest"), ("Brandywine", "OH", "midwest"),
   ("Mad River Mountain", "OH", "midwest"), ("Hidden Valley", "MO", "midwest"),
   ("Snow Creek", "MO", "midwest"), ("Paoli Peaks", "IN", "midwest"),
   ("Telluride Ski Resort", "CO", "rockies")]

/-- `IKON_RESORTS` from `build_resorts.py` (name, state, region). -/
def IKON_RESORTS : List (String × String × String) :=
  [("Aspen Snowmass", "CO", "rockies"), ("Steamboat", "CO", "rockies"),
   ("Winter Park", "CO", "rockies"), ("Copper Mountain", "CO", "rockies"),
   ("Eldora Mountain Resort", "CO", "rockies"), ("Jackson Hole", "WY", "rockies"),
   ("Big Sky", "MT", "rockies"), ("Alta", "UT", "rockies"),
   ("Snowbird", "UT", "rockies"), ("Deer Valley", "UT", "rockies"),
   ("Brighton", "UT", "rockies"), ("Solitude", "UT", "rockies"),
   ("Taos Ski Valley", "NM", "rockies"), ("Palisades Tahoe", "CA", "west"),
   ("Mammoth Mountain", "CA", "west"), ("June Mountain", "CA", "west"),
   ("Big Bear Mountain Resort", "CA", "west"), ("Snow Valley", "CA", "west"),
   ("Crystal Mountain", "WA", "pacific-northwest"),
   ("Summit at Snoqualmie", "WA", "pacific-northwest"),
   ("Schweitzer", "ID", "pacific-northwest"),
   ("Stratton", "VT", "northeast"), ("Sugarbush", "VT", "northeast"),
   ("Killington", "VT", "northeast"), ("Sunday River", "ME", "northeast"),
   ("Sugarloaf", "ME", "northeast"), ("Loon Mountain", "NH", "northeast"),
   ("Windham Mountain", "NY", "northeast"),
   ("Boyne Highlands", "MI", "midwest"), ("Boyne Mountain", "MI", "midwest"),
   ("Snowshoe", "WV", "southeast"), ("Blue Mountain", "PA", "northeast")]

/-- `key = f"{name}|{state}"`. -/
def mkKey (e : String × String × String) : String := e.1 ++ "|" ++ e.2.1

/-- The shared loop body: `if key in cache and cache[key].get("lat"):`
build the record (note: only the LATITUDE is truthiness-tested), else the
resort is recorded as missing (`none` here).  `cache[key]["lon"]` is a
plain subscript — `generate_data.py` always writes both keys, so we read
it with `getD 0` (unreachable default). -/
def includeEntry (cache : Cache) (e : String × String × String) (pass : String) :
    Option ResortRec :=
  let key := mkKey e
  match cache.lookup key with
  | none => none
  | some c =>
      if truthy c.lat then
        some ⟨key, e.1, e.2.1, pyRoundQ 6 (c.lat.getD 0), pyRoundQ 6 (c.lon.getD 0),
          pass, e.2.2⟩
      else none

/-- The Epic loop of `build_resorts.main`. -/
def epicPhase (cache : Cache) : List ResortRec :=
  EPIC_RESORTS.foldl (fun acc e =>
    match includeEntry cache e "epic" with
    | some r => acc ++ [r]
    | none => acc) []

/-- `existing["passNetwork"] = "both"` applied to the first record whose
id equals `key` (Python's `next((r for r in resorts if r["id"] == key), None)`
followed by in-place mutation). -/
def setBothFirst : List ResortRec → String → List ResortRec
  | [], _ => []
  | r :: rs, key =>
      if r.id = key then { r with passNetwork := "both" } :: rs
      else r :: setBothFirst rs key

/-- One Ikon-loop iteration of `build_resorts.main`: the dual-pass check
first, then the cache/truthy-latitude check. -/
def ikonStep (cache : Cache) (acc : List ResortRec) (e : String × String × String) :
    List ResortRec :=
  let key := mkKey e
  if (acc.find? (fun r => r.id == key)).isSome then setBothFirst acc key
  else
    match includeEntry cache e "ikon" with
    | some r => acc ++ [r]
    | none => acc

/-- `build_resorts.main` up to the final in-place `sort` by name (a
permutation that does not change the set of emitted records) and console
output. -/
def buildResorts (cache : Cache) : List ResortRec :=
  IKON_RESORTS.foldl (ikonStep cache) (epicPhase cache)

/-- `k` is the key of some hardcoded Epic resort. -/
def epicKeyed (k : String) : Prop := ∃ e ∈ EPIC_RESORTS, mkKey e = k

/-- `k` is the key of some hardcoded Ikon resort. -/
def ikonKeyed (k : String) : Prop := ∃ e ∈ IKON_RESORTS, mkKey e = k

/-- The record's id has a cache entry with a truthy latitude. -/
def FromTruthyLat (cache : Cache) (r : ResortRec) : Prop :=
  ∃ c, cache.lookup r.id = some c ∧ truthy c.lat = true

lemma includeEntry_some (cache : Cache) (e : String × String × String)
    (pass : String) (r : ResortRec) (h : includeEntry cache e pass = some r) :
    r.id = mkKey e ∧ r.passNetwork = pass ∧
      ∃ c, cache.lookup (mkKey e) = some c ∧ truthy c.lat = true := by
  simp only [includeEntry] at h
  cases hc : cache.lookup (mkKey e) with
  | none => simp [hc] at h
  | some c =>
    simp only [hc] at h
    by_cases ht : truthy c.lat = true
    · simp only [ht, if_true] at h
      injection h with h'
      rw [← h']
      exact ⟨rfl, rfl, c, rfl, ht⟩
    · simp [ht] at h

lemma epicFold_mem (cache : Cache) :
    ∀ (l : List (String × String × String)) (acc : List ResortRec) (r : ResortRec),
      r ∈ l.foldl (fun acc e =>
        match includeEntry cache e "epic" with
        | some x => acc ++ [x]
        | none => acc) acc →
      r ∈ acc ∨ ∃ e ∈ l, includeEntry cache e "epic" = some r := by
  intro l
  induction l with
  | nil => intro acc r h; exact Or.inl h
  | cons e t ih =>
    intro acc r h
    simp only [List.foldl_cons] at h
    cases hie : includeEntry cache e "epic" with
    | none =>
      simp only [hie] at h
      rcases ih _ r h with h' | ⟨e', he', hx⟩
      · exact Or.inl h'
      · exact Or.inr ⟨e', List.mem_cons_of_mem e he', hx⟩
    | some x =>
      simp only [hie] at h
      rcases ih _ r h with h' | ⟨e', he', hx⟩
      · rcases List.mem_append.mp h' with h'' | h''
        · exact Or.inl h''
        · have hrx : r = x := by simpa using h''
          refine Or.inr ⟨e, List.mem_cons_self e t, ?_⟩
          rw [hrx]; exact hie
      · exact Or.inr ⟨e', List.mem_cons_of_mem e he', hx⟩

lemma epicPhase_inv (cache : Cache) :
    ∀ r ∈ epicPhase cache,
      r.passNetwork = "epic" ∧ epicKeyed r.id ∧ FromTruthyLat cache r := by
  intro r hr
  rcases epicFold_mem cache EPIC_RESORTS [] r hr with h | ⟨e, he, hx⟩
  · simp at h
  · obtain ⟨hid, hpass, c, hc, ht⟩ := includeEntry_some cache e "epic" r hx
    have hc' : cache.lookup r.id = some c := by rw [hid]; exact hc
    exact ⟨hpass, ⟨e, he, hid.symm⟩, ⟨c, hc', ht⟩⟩

lemma setBothFirst_mem : ∀ (l : List ResortRec) (key : String) (r : ResortRec),
    r ∈ setBothFirst l key →
    r ∈ l ∨ ∃ r0 ∈ l, r0.id = key ∧ r = { r0 with passNetwork := "both" } := by
  intro l
  induction l with
  | nil => intro key r h; simp [setBothFirst] at h
  | cons a t ih =>
    intro key r h
    simp only [setBothFirst] at h
    by_cases ha : a.id = key
    · rw [if_pos ha] at h
      rcases List.mem_cons.mp h with h' | h'
      · exact Or.inr ⟨a, List.mem_cons_self a t, ha, h'⟩
      · exact Or.inl (List.mem_cons_of_mem a h')
    · rw [if_neg ha] at h
      rcases List.mem_cons.mp h with h' | h'
      · rw [h']; exact Or.inl (List.mem_cons_self a t)
      · rcases ih key r h' with h'' | ⟨r0, hr0, hid, heq⟩
        · exact Or.inl (List.mem_cons_of_mem a h'')
        · exact Or.inr ⟨r0, List.mem_cons_of_mem a hr0, hid, heq⟩

lemma ikonFold_truthy (cache : Cache) :
    ∀ (l : List (String × String × String)) (acc : List ResortRec),
      (∀ r ∈ acc, FromTruthyLat cache r) →
      ∀ r ∈ l.foldl (ikonStep cache) acc, FromTruthyLat cache r := by
  intro l
  induction l with
  | nil => intro acc hacc r hr; exact hacc r hr
  | cons e t ih =>
    intro acc hacc r hr
    simp only [List.foldl_cons] at hr
    refine ih (ikonStep cache acc e) ?_ r hr
    intro x hx
    simp only [ikonStep] at hx
    cases hf : (acc.find? (fun r => r.id == mkKey e)).isSome with
    | true =>
      simp only [hf, if_true] at hx
      rcases setBothFirst_mem acc (mkKey e) x hx with h' | ⟨r0, hr0, _, heq⟩
      · exact hacc x h'
      · rw [heq]; exact hacc r0 hr0
    | false =>
      simp only [hf, Bool.false_eq_true, if_false] at hx
      cases hie : includeEntry cache e "ikon" with
      | none => simp only [hie] at hx; exact hacc x hx
      | some y =>
        simp only [hie] at hx
        rcases List.mem_append.mp hx with h' | h'
        · exact hacc x h'
        · have hxy : x = y := by simpa using h'
          obtain ⟨hid, _, c, hc, ht⟩ := includeEntry_some cache e "ikon" y hie
          rw [hxy]
          have hc' : cache.lookup y.id = some c := by rw [hid]; exact hc
          exact ⟨c, hc', ht⟩

/-- Invariant carried through the Ikon loop: `rest` is the not-yet-processed
tail of `IKON_RESORTS`. -/
def PassInv (rest : List (String × String × String)) (r : ResortRec) : Prop :=
  (r.passNetwork = "epic" ∧ epicKeyed r.id) ∨
  (r.passNetwork = "ikon" ∧ ikonKeyed r.id ∧ ∀ e ∈ rest, mkKey e ≠ r.id) ∨
  (r.passNetwork = "both" ∧ epicKeyed r.id ∧ ikonKeyed r.id)

lemma passInv_weaken (e : String × String × String)
    (t : List (String × String × String)) (r : ResortRec) :
    PassInv (e :: t) r → PassInv t r := by
  rintro (h1 | ⟨h2a, h2b, h2c⟩ | h3)
  · exact Or.inl h1
  · exact Or.inr (Or.inl ⟨h2a, h2b, fun e' he' => h2c e' (List.mem_cons_of_mem e he')⟩)
  · exact Or.inr (Or.inr h3)

lemma ikonFold_pass (cache : Cache) :
    ∀ (l : List (String × String × String)) (acc : List ResortRec),
      (∀ e ∈ l, ikonKeyed (mkKey e)) →
      (l.map mkKey).Nodup →
      (∀ r ∈ acc, PassInv l r) →
      ∀ r ∈ l.foldl (ikonStep cache) acc, PassInv [] r := by
  intro l
  induction l with
  | nil => intro acc _ _ hacc r hr; exact hacc r hr
  | cons e t ih =>
    intro acc hkeys hnd hacc r hr
    simp only [List.foldl_cons] at hr
    have hnd2 : (t.map mkKey).Nodup := by
      simp only [List.map_cons, List.nodup_cons] at hnd
      exact hnd.2
    have hnotin : mkKey e ∉ t.map mkKey := by
      simp only [List.map_cons, List.nodup_cons] at hnd
      exact hnd.1
    have hkeys2 : ∀ e' ∈ t, ikonKeyed (mkKey e') :=
      fun e' he' => hkeys e' (List.mem_cons_of_mem e he')
    refine ih (ikonStep cache acc e) hkeys2 hnd2 ?_ r hr
    intro x hx
    simp only [ikonStep] at hx
    cases hf : (acc.find? (fun r => r.id == mkKey e)).isSome with
    | true =>
      simp only [hf, if_true] at hx
      rcases setBothFirst_mem acc (mkKey e) x hx with h' | ⟨r0, hr0, hid, heq⟩
      · exact passInv_weaken e t x (hacc x h')
      · rcases hacc r0 hr0 with ⟨_, h1b⟩ | ⟨_, _, h2c⟩ | ⟨_, h3b, h3c⟩
        · refine Or.inr (Or.inr ?_)
          rw [heq]
          refine ⟨rfl, h1b, ?_⟩
          show ikonKeyed r0.id
          rw [hid]
          exact hkeys e (List.mem_cons_self e t)
        · exact absurd hid.symm (h2c e (List.mem_cons_self e t))
        · refine Or.inr (Or.inr ?_)
          rw [heq]
          exact ⟨rfl, h3b, h3c⟩
    | false =>
      simp only [hf, Bool.false_eq_true, if_false] at hx
      cases hie : includeEntry cache e "ikon" with
      | none =>
        simp only [hie] at hx
        exact passInv_weaken e t x (hacc x hx)
      | some y =>
        simp only [hie] at hx
        rcases List.mem_append.mp hx with h' | h'
        · exact passInv_weaken e t x (hacc x h')
        · have hxy : x = y := by simpa using h'
          obtain ⟨hid, hpass, _⟩ := includeEntry_some cache e "ikon" y hie
          refine Or.inr (Or.inl ?_)
          rw [hxy, hid]
          refine ⟨hpass, hkeys e (List.mem_cons_self e t), ?_⟩
          intro e' he'
          intro hcontra
          exact hnotin (by rw [← hcontra]; exact List.mem_map_of_mem mkKey he')

lemma ikon_keys_nodup : (IKON_RESORTS.map mkKey).Nodup := by decide

lemma buildResorts_pass (cache : Cache) :
    ∀ r ∈ buildResorts cache, r.passNetwork = "both" →
      epicKeyed r.id ∧ ikonKeyed r.id := by
  intro r hr hboth
  have h := ikonFold_pass cache IKON_RESORTS (epicPhase cache)
    (fun e he => ⟨e, he, rfl⟩) ikon_keys_nodup
    (fun x hx => Or.inl ⟨(epicPhase_inv cache x hx).1, (epicPhase_inv cache x hx).2.1⟩)
    r hr
  rcases h with ⟨h1, _⟩ | ⟨h2, _, _⟩ | ⟨_, h3a, h3b⟩
  · rw [hboth] at h1; exact absurd h1 (by decide)
  · rw [hboth] at h2; exact absurd h2 (by decide)
  · exact ⟨h3a, h3b⟩

lemma buildResorts_truthy (cache : Cache) :
    ∀ r ∈ buildResorts cache, FromTruthyLat cache r :=
  ikonFold_truthy cache IKON_RESORTS (epicPhase cache)
    (fun x hx => (epicPhase_inv cache x hx).2.2)

lemma epicFold_mem_of (cache : Cache) :
    ∀ (l : List (String × String × String)) (acc : List ResortRec) (x : ResortRec),
      (x ∈ acc ∨ ∃ e ∈ l, includeEntry cache e "epic" = some x) →
      x ∈ l.foldl (fun acc e =>
        match includeEntry cache e "epic" with
        | some r => acc ++ [r]
        | none => acc) acc := by
  intro l
  induction l with
  | nil =>
    rintro acc x (h | ⟨e, he, _⟩)
    · exact h
    · simp at he
  | cons e t ih =>
    rintro acc x (h | ⟨e', he', hx⟩)
    · simp only [List.foldl_cons]
      refine ih _ x (Or.inl ?_)
      cases hie : includeEntry cache e "epic" with
      | none => simp only [hie]; exact h
      | some y => simp only [hie]; exact List.mem_append_left _ h
    · rcases List.mem_cons.mp he' with he'' | he''
      · subst he''
        simp only [List.foldl_cons, hx]
        refine ih _ x (Or.inl ?_)
        exact List.mem_append_right _ (List.mem_singleton.mpr rfl)
      · simp only [List.foldl_cons]
        exact ih _ x (Or.inr ⟨e', he'', hx⟩)

lemma setBothFirst_mem_of_ne : ∀ (l : List ResortRec) (key : String) (r : ResortRec),
    r ∈ l → r.id ≠ key → r ∈ setBothFirst l key := by
  intro l
  induction l with
  | nil => intro key r h _; cases h
  | cons a t ih =>
    intro key r h hne
    simp only [setBothFirst]
    by_cases ha : a.id = key
    · rw [if_pos ha]
      rcases List.mem_cons.mp h with h' | h'
      · exact absurd (by rw [h']; exact ha) hne
      · exact List.mem_cons_of_mem _ h'
    · rw [if_neg ha]
      rcases List.mem_cons.mp h with h' | h'
      · rw [h']; exact List.mem_cons_self _ _
      · exact List.mem_cons_of_mem _ (ih key r h' hne)

lemma ikonFold_mem_of (cache : Cache) :
    ∀ (l : List (String × String × String)) (acc : List ResortRec) (r : ResortRec),
      r ∈ acc → (∀ e ∈ l, mkKey e ≠ r.id) →
      r ∈ l.foldl (ikonStep cache) acc := by
  intro l
  induction l with
  | nil => intro acc r h _; exact h
  | cons e t ih =>
    intro acc r h hne
    simp only [List.foldl_cons]
    refine ih (ikonStep cache acc e) r ?_
      (fun e' he' => hne e' (List.mem_cons_of_mem e he'))
    simp only [ikonStep]
    cases hf : (acc.find? (fun x => x.id == mkKey e)).isSome with
    | true =>
      simp only [hf, if_true]
      exact setBothFirst_mem_of_ne acc (mkKey e) r h
        (fun hc => hne e (List.mem_cons_self e t) hc.symm)
    | false =>
      simp only [hf, Bool.false_eq_true, if_false]
      cases hie : includeEntry cache e "ikon" with
      | none => simp only [hie]; exact h
      | some y => simp only [hie]; exact List.mem_append_left _ h

/-- A record built from an Epic entry with a truthy cached latitude is in
the final output, provided its key is not also an Ikon key (which would
retag it `"both"`). -/
lemma buildResorts_mem_of_epic (cache : Cache) (e : String × String × String)
    (he : e ∈ EPIC_RESORTS) (x : ResortRec)
    (hx : includeEntry cache e "epic" = some x)
    (hni : ∀ i ∈ IKON_RESORTS, mkKey i ≠ x.id) :
    x ∈ buildResorts cache :=
  ikonFold_mem_of cache IKON_RESORTS (epicPhase cache) x
    (epicFold_mem_of cache EPIC_RESORTS [] x (Or.inr ⟨e, he, hx⟩)) hni

end BuildResorts

/-! ## Evaluation lemmas used by concrete witnesses -/

namespace Geocoder

lemma hav_a_equator : hav_a 0 0 0 1 = Real.sin (Real.pi / 360) ^ 2 := by
  unfold hav_a radians
  have e1 : ((0:ℝ) - 0) * Real.pi / 180 / 2 = 0 := by ring
  have e2 : ((1:ℝ) - 0) * Real.pi / 180 / 2 = Real.pi / 360 := by ring
  have e3 : (0:ℝ) * Real.pi / 180 = 0 := by ring
  rw [e1, e2, e3, Real.sin_zero, Real.cos_zero]
  ring

lemma sqrt_hav_a_equator :
    Real.sqrt (hav_a 0 0 0 1) = Real.sin (Real.pi / 360) := by
  rw [hav_a_equator]
  exact Real.sqrt_sq (Real.sin_nonneg_of_nonneg_of_le_pi (by positivity)
    (by linarith [Real.pi_pos]))

lemma arcsin_equator :
    Real.arcsin (Real.sqrt (hav_a 0 0 0 1)) = Real.pi / 360 := by
  rw [sqrt_hav_a_equator]
  exact Real.arcsin_sin (by linarith [Real.pi_pos]) (by linarith [Real.pi_pos])

/-- One degree of longitude at the equator, `geocoder.py` radius. -/
lemma haversine_equator :
    haversine_miles 0 0 0 1 = 2 * 3958.7613 * (Real.pi / 360) := by
  unfold haversine_miles
  rw [arcsin_equator]

end Geocoder

namespace BuildHospitals

/-- One degree of longitude at the equator, `build_hospitals.py` radius. -/
lemma haversine_equator_bh :
    haversine_miles 0 0 0 1 = 2 * 3958.8 * (Real.pi / 360) := by
  unfold haversine_miles
  rw [Geocoder.arcsin_equator]

end BuildHospitals

namespace FetchOSMHospitals

lemma haversine_self_osm (lat lon : ℝ) : haversine_miles lat lon lat lon = 0 :=
  BuildHospitals.haversine_self_bh lat lon

lemma process_hospital_eval :
    process_hospital [⟨"A", ((1:ℚ):ℝ), ((1:ℚ):ℝ)⟩] (some "H") (some 1) (some 1) =
      some (some "A", some (pyRound 1 0)) := by
  have hg : (truthy (some (1:ℚ)) && truthy (some (1:ℚ))) = true := by decide
  simp only [process_hospital, hg, if_true, Option.getD_some]
  have hscan : NearestScan.nearestScan
      (fun r : Resort => haversine_miles ((1:ℚ):ℝ) ((1:ℚ):ℝ) r.lat r.lon)
      [⟨"A", ((1:ℚ):ℝ), ((1:ℚ):ℝ)⟩] = some (⟨"A", ((1:ℚ):ℝ), ((1:ℚ):ℝ)⟩, 0) := by
    unfold NearestScan.nearestScan
    simp only [List.foldl_cons, List.foldl_nil, NearestScan.scanStep_none]
    rw [haversine_self_osm]
  simp only [hscan]
  rw [if_neg (by norm_num [MAX_DISTANCE_MILES])]

end FetchOSMHospitals

namespace FetchCMS

lemma haversine_self_cms (lat lon : ℝ) : haversine lat lon lat lon = 0 :=
  BuildHospitals.haversine_self_bh lat lon

lemma processRow_eval :
    processRow [⟨"A", ((1:ℚ):ℝ), ((1:ℚ):ℝ)⟩] (some ⟨some 1, some 1⟩) =
      some (some "A", some (pyRound 1 0)) := by
  have hg : (truthy (some (1:ℚ)) && truthy (some (1:ℚ))) = true := by decide
  simp only [processRow, hg, if_true, Option.getD_some]
  have hscan : NearestScan.nearestScan
      (fun r : Resort => haversine ((1:ℚ):ℝ) ((1:ℚ):ℝ) r.lat r.lon)
      [⟨"A", ((1:ℚ):ℝ), ((1:ℚ):ℝ)⟩] = some (⟨"A", ((1:ℚ):ℝ), ((1:ℚ):ℝ)⟩, 0) := by
    unfold NearestScan.nearestScan
    simp only [List.foldl_cons, List.foldl_nil, NearestScan.scanStep_none]
    rw [haversine_self_cms]
  simp only [hscan]
  rw [if_neg (by norm_num [MAX_DISTANCE_MILES])]

end FetchCMS

/-! ## `generate_data.py`: `main` and the CMS download (error handling)

`main` runs: (1) resort geocoding, (2) `download_dialysis_data`,
(3) clinic geocoding, (4) `generate_resorts_json` / `generate_clinics_json`.
Both dataset files are written in step 4 only; on an empty facility
DataFrame `main` prints an error and returns after step 2.  Network I/O is
out of scope: the metadata response and the CSV fetch are explicit
arguments (`none` = `requests.RequestException`). -/

namespace GenerateData

def CMS_CSV_FALLBACK : String :=
  "https://data.cms.gov/provider-data/sites/default/files/resources/c04d84bc5c641284494bee4f20f17f9c_1759341903/DFC_FACILITY.csv"

/-- One entry of the CMS metadata `distribution` array. -/
structure Distribution where
  mediaType : Option String
  downloadURL : Option String

/-- `get_cms_csv_url`: on a metadata `RequestException` (`meta = none`)
fall back; otherwise return the first `text/csv` distribution's
`downloadURL` (defaulting to the fallback), or the fallback if none. -/
def get_cms_csv_url (meta : Option (List Distribution)) : String :=
  match meta with
  | none => CMS_CSV_FALLBACK
  | some dists =>
      match dists.find? (fun d => d.mediaType == some "text/csv") with
      | some d => d.downloadURL.getD CMS_CSV_FALLBACK
      | none => CMS_CSV_FALLBACK

/-- `download_dialysis_data`: fetch the CSV at the resolved URL and parse
it; a `RequestException` (`fetch url = none`) yields an empty DataFrame. -/
def download_dialysis_data (Row : Type) (meta : Option (List Distribution))
    (fetch : String → Option (List Row)) : List Row :=
  match fetch (get_cms_csv_url meta) with
  | some rows => rows
  | none => []

/-- Observable file effects of one `generate_data.main` run. -/
structure RunEffects where
  wroteResortsJson : Bool
  wroteClinicsJson : Bool
  abortedNoData : Bool
deriving DecidableEq

/-- `generate_data.main` reduced to its output-file effects: the
`if df_facilities.empty: print error; return` early exit precedes both
`generate_resorts_json` and `generate_clinics_json`. -/
def mainRun (Row : Type) (meta : Option (List Distribution))
    (fetch : String → Option (List Row)) : RunEffects :=
  let df := download_dialysis_data Row meta fetch
  if df.isEmpty then ⟨false, false, true⟩ else ⟨true, true, false⟩

end GenerateData

/-! ## Claims -/

/-- C1: For every facility coordinate `(flat, flon)` and every maxDistance
threshold, the nearest-match scan followed by the max-distance policy
(`generate_data.generate_clinics_json`; `fetch_cms_hospitals.main` composes
the identical `NearestScan.nearestWithin`) returns `none` — facility
excluded from output — iff the resort list is empty or the minimum
haversine distance from the facility to every resort exceeds the
threshold; otherwise it returns some resort together with that minimum
distance (the resort's own distance, a lower bound for all). -/
theorem C1_nearest_within_characterization (flat flon maxD : ℝ) (rs : List Resort) :
    (GenerateData.clinicNearest flat flon maxD rs = none ↔
      rs = [] ∨ ∀ r ∈ rs, maxD < GenerateData.resortDist flat flon r) ∧
    (∀ b m, GenerateData.clinicNearest flat flon maxD rs = some (b, m) →
      b ∈ rs ∧ m = GenerateData.resortDist flat flon b ∧ m ≤ maxD ∧
        ∀ r ∈ rs, m ≤ GenerateData.resortDist flat flon r) :=
  NearestScan.nearestWithin_spec (GenerateData.resortDist flat flon) maxD rs

/-- C1 witness: the empty-list case returns `none`, and on the singleton
list of a coincident resort the scan returns that resort at distance `0`,
within threshold `1`. -/
theorem C1_witness :
    GenerateData.clinicNearest 0 0 1 ([] : List Resort) = none ∧
    (⟨"A", 0, 0⟩ : Resort) ∈ [(⟨"A", 0, 0⟩ : Resort)] ∧
    (0 : ℝ) = GenerateData.resortDist 0 0 ⟨"A", 0, 0⟩ ∧ (0 : ℝ) ≤ 1 := by
  refine ⟨(C1_nearest_within_characterization 0 0 1 []).1.mpr (Or.inl rfl), ?_⟩
  have h := (C1_nearest_within_characterization 0 0 1 [⟨"A", 0, 0⟩]).2 ⟨"A", 0, 0⟩ 0
    (GenerateData.clinicNearest_singleton_self 0 0 1 "A" (by norm_num))
  exact ⟨h.1, h.2.1, h.2.2.1⟩

/-- C2 counterexample: resort `B` coincides with the facility (haversine
distance `0`) and is in the list, but the scan returns the earlier
coincident resort `A`, not `B` — the claim's "returns R regardless of
which other resorts are present and of their position in the iteration
order" fails when another resort is at the same distance. -/
theorem C2_counterexample :
    GenerateData.resortDist 0 0 ⟨"B", 0, 0⟩ = 0 ∧
    (⟨"B", 0, 0⟩ : Resort) ∈ [(⟨"A", 0, 0⟩ : Resort), ⟨"B", 0, 0⟩] ∧
    GenerateData.nearestResortScan 0 0 [⟨"A", 0, 0⟩, ⟨"B", 0, 0⟩] =
      some (⟨"A", 0, 0⟩, 0) ∧
    (⟨"A", 0, 0⟩ : Resort).name ≠ (⟨"B", 0, 0⟩ : Resort).name :=
  ⟨GenerateData.resortDist_self 0 0 "B", by simp,
    GenerateData.nearestResortScan_pair_coincident 0 0 "A" "B", by simp⟩

/-- C2 (amended): if resort `R` coincides with the facility (haversine
distance `0`) and every resort BEFORE `R` in iteration order is at
strictly positive distance, the scan returns `R` with distance `0`,
whatever resorts follow.  (The strict `<` update keeps the first
minimizer; haversine distances are never negative.) -/
theorem C2_first_coincident_wins (flat flon : ℝ) (pre post : List Resort) (R : Resort)
    (hlat : R.lat = flat) (hlon : R.lon = flon)
    (hpre : ∀ p ∈ pre, 0 < GenerateData.resortDist flat flon p) :
    GenerateData.nearestResortScan flat flon (pre ++ R :: post) = some (R, 0) := by
  have hR : GenerateData.resortDist flat flon R = 0 := by
    unfold GenerateData.resortDist
    rw [hlat, hlon]
    exact Geocoder.haversine_self flat flon
  have h := NearestScan.nearestScan_first_min (GenerateData.resortDist flat flon) pre post R
    (fun p hp => by rw [hR]; exact hpre p hp)
    (fun r hr => by
      rw [hR]
      exact not_lt.mpr (Geocoder.haversine_nonneg flat flon r.lat r.lon))
  unfold GenerateData.nearestResortScan
  rw [h, hR]

/-- C2 witness: singleton coincident resort. -/
theorem C2_witness :
    GenerateData.nearestResortScan 0 0 [(⟨"A", 0, 0⟩ : Resort)] =
      some (⟨"A", 0, 0⟩, 0) :=
  C2_first_coincident_wins 0 0 [] [] ⟨"A", 0, 0⟩ rfl rfl (by simp)

/-- C3: for both cached geocoders (`ResortGeocoder.geocode`,
`FacilityGeocoder.geocode`): a cache hit makes zero external calls and
returns exactly the stored `(lat, lon)` pair with the state unchanged; a
miss makes exactly one external call, stores the result (success or
`(None, None)` failure) under the key, and the immediately following call
for the same key makes zero external calls, returns the same pair, and
leaves the state unchanged. -/
theorem C3_geocode_cache_behavior (α : Type)
    (ext : String → String → Option α × Option α × String)
    (extF : String → String → String → String → Option α × Option α)
    (g : Geocoder.ResortGeocoderState α) (gf : Geocoder.FacilityGeocoderState α)
    (name state ccn addr city st zipc : String) :
    (∀ e, g.cache.lookup (name ++ "|" ++ state) = some e →
      Geocoder.resort_geocode ext g name state = ((e.lat, e.lon), g, 0)) ∧
    (g.cache.lookup (name ++ "|" ++ state) = none →
      Geocoder.resort_geocode ext g name state =
        (((ext name state).1, (ext name state).2.1),
          ⟨(name ++ "|" ++ state,
            ⟨(ext name state).1, (ext name state).2.1, (ext name state).2.2⟩) ::
            g.cache⟩, 1) ∧
      Geocoder.resort_geocode ext
          ⟨(name ++ "|" ++ state,
            ⟨(ext name state).1, (ext name state).2.1, (ext name state).2.2⟩) ::
            g.cache⟩ name state =
        (((ext name state).1, (ext name state).2.1),
          ⟨(name ++ "|" ++ state,
            ⟨(ext name state).1, (ext name state).2.1, (ext name state).2.2⟩) ::
            g.cache⟩, 0)) ∧
    (∀ e, gf.cache.lookup ccn = some e →
      Geocoder.facility_geocode extF gf ccn addr city st zipc = ((e.lat, e.lon), gf, 0)) ∧
    (gf.cache.lookup ccn = none →
      Geocoder.facility_geocode extF gf ccn addr city st zipc =
        (extF addr city st zipc,
          ⟨(ccn, ⟨(extF addr city st zipc).1, (extF addr city st zipc).2⟩) ::
            gf.cache⟩, 1) ∧
      Geocoder.facility_geocode extF
          ⟨(ccn, ⟨(extF addr city st zipc).1, (extF addr city st zipc).2⟩) ::
            gf.cache⟩ ccn addr city st zipc =
        (((extF addr city st zipc).1, (extF addr city st zipc).2),
          ⟨(ccn, ⟨(extF addr city st zipc).1, (extF addr city st zipc).2⟩) ::
            gf.cache⟩, 0)) := by
  refine ⟨?_, ?_, ?_, ?_⟩
  · intro e he
    simp [Geocoder.resort_geocode, he]
  · intro hmiss
    refine ⟨by simp [Geocoder.resort_geocode, hmiss], ?_⟩
    simp [Geocoder.resort_geocode, List.lookup]
  · intro e he
    simp [Geocoder.facility_geocode, he]
  · intro hmiss
    refine ⟨by simp [Geocoder.facility_geocode, hmiss], ?_⟩
    simp [Geocoder.facility_geocode, List.lookup]

/-- C3 witness: on an empty cache, a failing external resolution
(`(None, None)`) is called exactly once and cached; the second call for
the same key makes zero external calls and returns the cached failure.
Both geocoders exercised. -/
theorem C3_witness :
    Geocoder.resort_geocode (fun _ _ => ((none : Option ℚ), none, "Vail, CO, USA"))
        ⟨[]⟩ "Vail" "CO" =
      ((none, none), ⟨[("Vail|CO", ⟨none, none, "Vail, CO, USA"⟩)]⟩, 1) ∧
    Geocoder.resort_geocode (fun _ _ => ((none : Option ℚ), none, "Vail, CO, USA"))
        ⟨[("Vail|CO", ⟨none, none, "Vail, CO, USA"⟩)]⟩ "Vail" "CO" =
      ((none, none), ⟨[("Vail|CO", ⟨none, none, "Vail, CO, USA"⟩)]⟩, 0) ∧
    Geocoder.facility_geocode (fun _ _ _ _ => ((none : Option ℚ), none))
        ⟨[]⟩ "012345" "1 Main St" "Denver" "CO" "80201" =
      ((none, none), ⟨[("012345", ⟨none, none⟩)]⟩, 1) ∧
    Geocoder.facility_geocode (fun _ _ _ _ => ((none : Option ℚ), none))
        ⟨[("012345", ⟨none, none⟩)]⟩ "012345" "1 Main St" "Denver" "CO" "80201" =
      ((none, none), ⟨[("012345", ⟨none, none⟩)]⟩, 0) := by
  obtain ⟨-, hmiss, -, hfmiss⟩ := C3_geocode_cache_behavior ℚ
    (fun _ _ => (none, none, "Vail, CO, USA")) (fun _ _ _ _ => (none, none))
    ⟨[]⟩ ⟨[]⟩ "Vail" "CO" "012345" "1 Main St" "Denver" "CO" "80201"
  exact ⟨(hmiss rfl).1, (hmiss rfl).2, (hfmiss rfl).1, (hfmiss rfl).2⟩

/-- C4: `classify_provider` is a total function on strings into the four
categories; it uppercases the input and tests the ordered substring rules
(`DAVITA` → davita, `FRESENIUS` → fresenius, `FMC` → fresenius,
`DIALYSIS CLINIC` → independent) with the first matching rule winning,
returning `"other"` for empty input or no match; the five fixture
examples from the spec hold. -/
theorem C4_classify_provider_rules :
    (∀ s, Config.classify_provider s ∈
      (["davita", "fresenius", "independent", "other"] : List String)) ∧
    (∀ s, Config.classify_provider s = "davita" ↔
      s ≠ "" ∧ Config.keyMatch s "DAVITA" = true) ∧
    (∀ s, Config.classify_provider s = "fresenius" ↔
      s ≠ "" ∧ Config.keyMatch s "DAVITA" = false ∧
        (Config.keyMatch s "FRESENIUS" = true ∨ Config.keyMatch s "FMC" = true)) ∧
    (∀ s, Config.classify_provider s = "independent" ↔
      s ≠ "" ∧ Config.keyMatch s "DAVITA" = false ∧
        Config.keyMatch s "FRESENIUS" = false ∧ Config.keyMatch s "FMC" = false ∧
        Config.keyMatch s "DIALYSIS CLINIC" = true) ∧
    (∀ s, Config.classify_provider s = "other" ↔
      s = "" ∨ (Config.keyMatch s "DAVITA" = false ∧
        Config.keyMatch s "FRESENIUS" = false ∧ Config.keyMatch s "FMC" = false ∧
        Config.keyMatch s "DIALYSIS CLINIC" = false)) ∧
    Config.classify_provider "DaVita Inc." = "davita" ∧
    Config.classify_provider "Fresenius Medical Care" = "fresenius" ∧
    Config.classify_provider "FMC Dialysis" = "fresenius" ∧
    Config.classify_provider "" = "other" ∧
    Config.classify_provider "Acme Renal" = "other" := by
  refine ⟨?_, ?_, ?_, ?_, ?_, by decide, by decide, by decide, by decide, by decide⟩ <;>
    intro s <;> rw [Config.classify_eq] <;> by_cases h0 : s = ""
  · simp [h0]
  · cases h1 : Config.keyMatch s "DAVITA" <;>
      cases h2 : Config.keyMatch s "FRESENIUS" <;>
        cases h3 : Config.keyMatch s "FMC" <;>
          cases h4 : Config.keyMatch s "DIALYSIS CLINIC" <;>
            simp [h0, h1, h2, h3, h4]
  · simp [h0]
  · cases h1 : Config.keyMatch s "DAVITA" <;>
      cases h2 : Config.keyMatch s "FRESENIUS" <;>
        cases h3 : Config.keyMatch s "FMC" <;>
          cases h4 : Config.keyMatch s "DIALYSIS CLINIC" <;>
            simp [h0, h1, h2, h3, h4]
  · simp [h0]
  · cases h1 : Config.keyMatch s "DAVITA" <;>
      cases h2 : Config.keyMatch s "FRESENIUS" <;>
        cases h3 : Config.keyMatch s "FMC" <;>
          cases h4 : Config.keyMatch s "DIALYSIS CLINIC" <;>
            simp [h0, h1, h2, h3, h4]
  · simp [h0]
  · cases h1 : Config.keyMatch s "DAVITA" <;>
      cases h2 : Config.keyMatch s "FRESENIUS" <;>
        cases h3 : Config.keyMatch s "FMC" <;>
          cases h4 : Config.keyMatch s "DIALYSIS CLINIC" <;>
            simp [h0, h1, h2, h3, h4]
  · simp [h0]
  · cases h1 : Config.keyMatch s "DAVITA" <;>
      cases h2 : Config.keyMatch s "FRESENIUS" <;>
        cases h3 : Config.keyMatch s "FMC" <;>
          cases h4 : Config.keyMatch s "DIALYSIS CLINIC" <;>
            simp [h0, h1, h2, h3, h4]

/-- C5: in every facility record emitted by any build variant the
`nearestResort` / `nearestResortDist` fields are both set or (for
`build_hospitals.py`, whose record is always emitted) both null — never
one without the other.  `generate_data.py`, `fetch_osm_hospitals.py` and
`fetch_cms_hospitals.py` drop the facility instead of emitting nulls, so
an emitted record always has both fields set; `build_hospitals.py` emits
both-null exactly on an empty resort list. -/
theorem C5_nearest_fields_both_or_neither :
    (∀ (rs : List Resort) (flat flon : ℝ) (rec : Option String × Option ℝ),
      GenerateData.clinicRecord rs flat flon = some rec →
        rec.1.isSome ∧ rec.2.isSome) ∧
    (∀ (rs : List Resort) (lat lon : ℝ),
      (BuildHospitals.hospitalFields rs lat lon).1 = none ↔
        (BuildHospitals.hospitalFields rs lat lon).2 = none) ∧
    (∀ (rs : List Resort) (nm : Option String) (latO lonO : Option ℚ)
        (rec : Option String × Option ℝ),
      FetchOSMHospitals.process_hospital rs nm latO lonO = some rec →
        rec.1.isSome ∧ rec.2.isSome) ∧
    (∀ (rs : List Resort) (entry : Option FetchCMS.CacheEntry)
        (rec : Option String × Option ℝ),
      FetchCMS.processRow rs entry = some rec →
        rec.1.isSome ∧ rec.2.isSome) := by
  refine ⟨?_, fun rs lat lon => BuildHospitals.hospitalFields_none_iff rs lat lon, ?_, ?_⟩
  · intro rs flat flon rec h
    simp only [GenerateData.clinicRecord] at h
    cases hscan : NearestScan.nearestScan (GenerateData.resortDist flat flon) rs with
    | none => simp [hscan] at h
    | some p =>
      obtain ⟨b, m⟩ := p
      simp only [hscan] at h
      by_cases hle : m ≤ GenerateData.MAX_CLINIC_DISTANCE
      · rw [if_pos hle] at h
        injection h with h'
        rw [← h']
        exact ⟨rfl, rfl⟩
      · simp [hle] at h
  · intro rs nm latO lonO rec h
    simp only [FetchOSMHospitals.process_hospital] at h
    cases nm with
    | none => simp at h
    | some n =>
      cases hg : (truthy latO && truthy lonO) with
      | false => simp [hg] at h
      | true =>
        simp only [hg, if_true] at h
        cases hscan : NearestScan.nearestScan
            (fun r : Resort => FetchOSMHospitals.haversine_miles
              ((latO.getD 0 : ℚ) : ℝ) ((lonO.getD 0 : ℚ) : ℝ) r.lat r.lon) rs with
        | none => simp [hscan] at h
        | some p =>
          obtain ⟨b, m⟩ := p
          simp only [hscan] at h
          by_cases hlt : FetchOSMHospitals.MAX_DISTANCE_MILES < m
          · simp [hlt] at h
          · rw [if_neg hlt] at h
            injection h with h'
            rw [← h']
            exact ⟨rfl, rfl⟩
  · intro rs entry rec h
    cases entry with
    | none =>
      simp only [FetchCMS.processRow] at h
      simp [truthy] at h
    | some e =>
      simp only [FetchCMS.processRow] at h
      cases hg : (truthy e.lat && truthy e.lon) with
      | false => simp [hg] at h
      | true =>
        simp only [hg, if_true] at h
        cases hscan : NearestScan.nearestScan
            (fun r : Resort => FetchCMS.haversine
              ((e.lat.getD 0 : ℚ) : ℝ) ((e.lon.getD 0 : ℚ) : ℝ) r.lat r.lon) rs with
        | none => simp [hscan] at h
        | some p =>
          obtain ⟨b, m⟩ := p
          simp only [hscan] at h
          by_cases hlt : FetchCMS.MAX_DISTANCE_MILES < m
          · simp [hlt] at h
          · rw [if_neg hlt] at h
            injection h with h'
            rw [← h']
            exact ⟨rfl, rfl⟩

/-- C5 witness: concrete emitted records of three variants have both
fields set, and `build_hospitals.py` on an empty resort list has both
fields null. -/
theorem C5_witness :
    ((some "A" : Option String).isSome ∧ (some (pyRound 2 0) : Option ℝ).isSome) ∧
    ((BuildHospitals.hospitalFields [] 0 0).1 = none ↔
      (BuildHospitals.hospitalFields [] 0 0).2 = none) ∧
    ((some "A" : Option String).isSome ∧ (some (pyRound 1 0) : Option ℝ).isSome) := by
  refine ⟨?_, C5_nearest_fields_both_or_neither.2.1 [] 0 0, ?_⟩
  · exact C5_nearest_fields_both_or_neither.1 [⟨"A", 0, 0⟩] 0 0
      (some "A", some (pyRound 2 0)) (GenerateData.clinicRecord_singleton 0 0 "A")
  · exact C5_nearest_fields_both_or_neither.2.2.2 [⟨"A", ((1:ℚ):ℝ), ((1:ℚ):ℝ)⟩]
      (some ⟨some 1, some 1⟩) (some "A", some (pyRound 1 0)) FetchCMS.processRow_eval

/-- C6: if the bulk facility download fails entirely (every fetch raises,
modelled as `fetch url = none` for every url — covering both the metadata
indirection's resolved URL and the fallback), `generate_data.main` reports
the error and returns before `generate_resorts_json` and
`generate_clinics_json`: neither output dataset file is written. -/
theorem C6_fatal_download_no_outputs (Row : Type)
    (meta : Option (List GenerateData.Distribution))
    (fetch : String → Option (List Row))
    (hfail : ∀ url, fetch url = none) :
    GenerateData.mainRun Row meta fetch = ⟨false, false, true⟩ := by
  unfold GenerateData.mainRun GenerateData.download_dialysis_data
  rw [hfail]
  rfl

/-- C6 witness: concrete run with a failing network. -/
theorem C6_witness :
    GenerateData.mainRun Unit none (fun _ => none) = ⟨false, false, true⟩ :=
  C6_fatal_download_no_outputs Unit none (fun _ => none) (fun _ => rfl)

/-- C7: for all real inputs, the argument `a` passed to `math.sqrt` in
`haversine_miles` is non-negative (and at most `1`), and the argument
passed to `math.asin` lies within `[-1, 1]`; the result is non-negative —
no domain error or failure branch is reachable. -/
theorem C7_haversine_domain_safe (lat1 lon1 lat2 lon2 : ℝ) :
    0 ≤ Geocoder.hav_a lat1 lon1 lat2 lon2 ∧
    Geocoder.hav_a lat1 lon1 lat2 lon2 ≤ 1 ∧
    -1 ≤ Real.sqrt (Geocoder.hav_a lat1 lon1 lat2 lon2) ∧
    Real.sqrt (Geocoder.hav_a lat1 lon1 lat2 lon2) ≤ 1 ∧
    0 ≤ Geocoder.haversine_miles lat1 lon1 lat2 lon2 :=
  ⟨Geocoder.hav_a_nonneg lat1 lon1 lat2 lon2,
   Geocoder.hav_a_le_one lat1 lon1 lat2 lon2,
   le_trans (by norm_num) (Real.sqrt_nonneg _),
   Geocoder.sqrt_hav_a_le_one lat1 lon1 lat2 lon2,
   Geocoder.haversine_nonneg lat1 lon1 lat2 lon2⟩

/-- C8: the distance between `(0,0)` and `(0,1)` — one degree of
longitude at the equator — is approximately `69.17` miles (within `0.1`
miles: the code value is `R·π/180 ≈ 69.09`), for both Earth-radius
variants (`geocoder.py`'s `3958.7613` and `build_hospitals.py`'s
`3958.8`). -/
theorem C8_haversine_equator_fixture :
    |Geocoder.haversine_miles 0 0 0 1 - 69.17| < 0.1 ∧
    |BuildHospitals.haversine_miles 0 0 0 1 - 69.17| < 0.1 := by
  rw [Geocoder.haversine_equator, BuildHospitals.haversine_equator_bh]
  have hl := Real.pi_gt_d6
  have hu := Real.pi_lt_d6
  constructor <;> rw [abs_lt] <;> constructor <;> nlinarith

/-- C9: a resort record's `passNetwork` is `"both"` only when the resort
name matches both membership sets.  For `fetch_osm_resorts.get_pass_network`
this is an exact iff on the two substring-set matches; for
`build_resorts.main` a `"both"` record's key must be a key of both the
hardcoded Epic and Ikon lists; `config.get_all_resorts` never yields
`"both"` (its `BOTH_PASS_RESORTS` list is empty). -/
theorem C9_pass_network_both :
    (∀ name : String, FetchOSMResorts.get_pass_network name = "both" ↔
      FetchOSMResorts.epicMatch name = true ∧ FetchOSMResorts.ikonMatch name = true) ∧
    (∀ (cache : BuildResorts.Cache) (r : BuildResorts.ResortRec),
      r ∈ BuildResorts.buildResorts cache → r.passNetwork = "both" →
        BuildResorts.epicKeyed r.id ∧ BuildResorts.ikonKeyed r.id) ∧
    (∀ r ∈ Config.get_all_resorts, r.passNetwork ≠ "both") :=
  ⟨FetchOSMResorts.get_pass_network_both_iff,
   fun cache r hr hb => BuildResorts.buildResorts_pass cache r hr hb,
   Config.get_all_resorts_no_both⟩

/-- C9 witness: `"Mt Brighton"` matches both OSM name sets (Epic pattern
`"mt brighton"`, Ikon pattern `"brighton"`) and is tagged `"both"`; a
concretely built `build_resorts` record and a concrete `get_all_resorts`
record exercise the other two parts. -/
theorem C9_witness :
    FetchOSMResorts.get_pass_network "Mt Brighton" = "both" ∧
    ((⟨"Vail|CO", "Vail", "CO", pyRoundQ 6 ((some (39:ℚ)).getD 0),
        pyRoundQ 6 ((some ((-106):ℚ)).getD 0), "epic", "rockies"⟩ :
          BuildResorts.ResortRec).passNetwork = "both" →
      BuildResorts.epicKeyed "Vail|CO" ∧ BuildResorts.ikonKeyed "Vail|CO") ∧
    (⟨"Vail", "CO", "rockies", "epic"⟩ : Config.ResortWithPass).passNetwork ≠ "both" := by
  refine ⟨(C9_pass_network_both.1 "Mt Brighton").mpr ⟨by decide, by decide⟩, ?_, ?_⟩
  · intro hb
    refine C9_pass_network_both.2.1 [("Vail|CO", ⟨some 39, some (-106)⟩)] _ ?_ hb
    exact BuildResorts.buildResorts_mem_of_epic _ ("Vail", "CO", "rockies")
      (by decide) _ rfl (by decide)
  · exact C9_pass_network_both.2.2 ⟨"Vail", "CO", "rockies", "epic"⟩ (by decide)

/-- C10 counterexample: `build_resorts.py` tests only the LATITUDE for
truthiness (`cache[key].get("lat")`), so a resort whose resolved
longitude is exactly `0.0` (latitude `39`) is NOT treated as ungeocoded:
it is emitted, refuting "the resort or facility is excluded from
geo-dependent output" for the longitude-0 case. -/
theorem C10_counterexample :
    ∃ r ∈ BuildResorts.buildResorts [("Vail|CO", ⟨some 39, some 0⟩)],
      r.name = "Vail" ∧ r.state = "CO" ∧ r.lon = 0 := by
  refine ⟨⟨"Vail|CO", "Vail", "CO", pyRoundQ 6 ((some (39:ℚ)).getD 0),
    pyRoundQ 6 ((some (0:ℚ)).getD 0), "epic", "rockies"⟩, ?_, rfl, rfl, ?_⟩
  · exact BuildResorts.buildResorts_mem_of_epic _ ("Vail", "CO", "rockies")
      (by decide) _ rfl (by decide)
  · show pyRoundQ 6 ((some (0:ℚ)).getD 0) = 0
    simp [pyRoundQ]

/-- C10 (amended): the presence checks use Python truthiness, but
`build_resorts.py` tests only the latitude — a record is emitted only if
its cached LATITUDE is truthy (so latitude exactly `0.0` excludes it,
while longitude `0.0` alone does not); the facility pipelines
(`fetch_cms_hospitals.py`, `fetch_osm_hospitals.py`) skip a facility when
either coordinate is `None` or `0.0`; and the Census single-address
geocoder returns `(None, None)` when either coordinate of a successful
match is `0.0`. -/
theorem C10_truthiness_amended :
    (∀ (cache : BuildResorts.Cache) (r : BuildResorts.ResortRec),
      r ∈ BuildResorts.buildResorts cache →
        ∃ c, cache.lookup r.id = some c ∧ truthy c.lat = true) ∧
    (∀ (rs : List Resort) (e : FetchCMS.CacheEntry),
      truthy e.lat = false ∨ truthy e.lon = false →
        FetchCMS.processRow rs (some e) = none) ∧
    (∀ (rs : List Resort) (nm : Option String) (latO lonO : Option ℚ),
      truthy latO = false ∨ truthy lonO = false →
        FetchOSMHospitals.process_hospital rs nm latO lonO = none) ∧
    (∀ (m : Geocoder.AddressMatch) (rest : List Geocoder.AddressMatch),
      truthy m.y = false ∨ truthy m.x = false →
        Geocoder.census_extract (m :: rest) = (none, none)) := by
  refine ⟨fun cache r hr => BuildResorts.buildResorts_truthy cache r hr, ?_, ?_, ?_⟩
  · intro rs e h
    rcases h with h | h <;> simp [FetchCMS.processRow, h]
  · intro rs nm latO lonO h
    cases nm with
    | none => simp [FetchOSMHospitals.process_hospital]
    | some n =>
      rcases h with h | h <;> simp [FetchOSMHospitals.process_hospital, h]
  · intro m rest h
    rcases h with h | h <;> simp [Geocoder.census_extract, h]

/-- C10 witness: a truthy-latitude record is emitted with its cache entry
recovered; a latitude-0 CMS row, a latitude-0 OSM hospital and a
latitude-0 Census match are all rejected. -/
theorem C10_witness :
    (∃ c, ([("Vail|CO", ⟨some 39, some 5⟩)] : BuildResorts.Cache).lookup
        "Vail|CO" = some c ∧ truthy c.lat = true) ∧
    FetchCMS.processRow [] (some ⟨some 0, some 5⟩) = none ∧
    FetchOSMHospitals.process_hospital [] (some "H") (some 0) (some 5) = none ∧
    Geocoder.census_extract [⟨some 5, some 0⟩] = (none, none) := by
  refine ⟨?_, ?_, ?_, ?_⟩
  · exact C10_truthiness_amended.1 [("Vail|CO", ⟨some 39, some 5⟩)]
      ⟨"Vail|CO", "Vail", "CO", pyRoundQ 6 ((some (39:ℚ)).getD 0),
        pyRoundQ 6 ((some (5:ℚ)).getD 0), "epic", "rockies"⟩
      (BuildResorts.buildResorts_mem_of_epic _ ("Vail", "CO", "rockies")
        (by decide) _ rfl (by decide))
  · exact C10_truthiness_amended.2.1 [] ⟨some 0, some 5⟩ (Or.inl rfl)
  · exact C10_truthiness_amended.2.2.1 [] (some "H") (some 0) (some 5) (Or.inl rfl)
  · exact C10_truthiness_amended.2.2.2 ⟨some 5, some 0⟩ [] (Or.inl rfl)
